import Mathlib

/-!
Verification of the mobile-test-farm traffic-interception and mock-compilation
scripts (`src/mocks/scripts/`).  Each Python script relevant to the claims is
shallowly embedded as executable Lean definitions:

* `mitm_to_mockoon.py`  — recorded-log → Mockoon route-table compiler;
* `fallback_mock.py`    — fallback to the mock backend on real 5xx errors;
* `route_to_mockoon.py` — pattern/override based request routing;
* `enhance_responses.py`— merging real 200 responses with supplemental data;
* `selective_record.py` — allow/deny recording filter;
* `conditional_mock.py` — header/query driven conditional routing.

JSON bodies are modelled by the tagged value type `JVal` (numbers as `Int`,
which covers every value the scripts construct).  HTTP headers are association
lists `List (String × String)`; lookup and assignment are case-insensitive on
the key, as in mitmproxy's `Headers` class.  Network calls performed by the
scripts (the request to the mock backend, the supplemental fetch) are passed
in as explicit outcome parameters, so that each handler is a pure function of
the flow and of the environment's answer.
-/

/-- Tagged JSON value, as produced by Python's `json.loads`. -/
inductive JVal where
  | null
  | bool (b : Bool)
  | num (n : Int)
  | str (s : String)
  | arr (xs : List JVal)
  | obj (kvs : List (String × JVal))
deriving Repr

mutual

/-- Structural equality test for `JVal` (no deriving handler exists for the
nested occurrence of `List`). -/
def jeq : JVal → JVal → Bool
  | .null, .null => true
  | .bool a, .bool b => a = b
  | .num a, .num b => a = b
  | .str a, .str b => a = b
  | .arr a, .arr b => jeqList a b
  | .obj a, .obj b => jeqObj a b
  | _, _ => false

def jeqList : List JVal → List JVal → Bool
  | [], [] => true
  | a :: as', b :: bs' => jeq a b && jeqList as' bs'
  | _, _ => false

def jeqObj : List (String × JVal) → List (String × JVal) → Bool
  | [], [] => true
  | (ka, va) :: as', (kb, vb) :: bs' => ka = kb && jeq va vb && jeqObj as' bs'
  | _, _ => false

end

mutual

theorem jeq_iff : ∀ a b : JVal, jeq a b = true ↔ a = b
  | .null, .null => by simp [jeq]
  | .bool _, .bool _ => by simp [jeq]
  | .num _, .num _ => by simp [jeq]
  | .str _, .str _ => by simp [jeq]
  | .arr a, .arr b => by simp [jeq, jeqList_iff a b]
  | .obj a, .obj b => by simp [jeq, jeqObj_iff a b]
  | .null, .bool _ | .null, .num _ | .null, .str _ | .null, .arr _ | .null, .obj _
  | .bool _, .null | .bool _, .num _ | .bool _, .str _ | .bool _, .arr _ | .bool _, .obj _
  | .num _, .null | .num _, .bool _ | .num _, .str _ | .num _, .arr _ | .num _, .obj _
  | .str _, .null | .str _, .bool _ | .str _, .num _ | .str _, .arr _ | .str _, .obj _
  | .arr _, .null | .arr _, .bool _ | .arr _, .num _ | .arr _, .str _ | .arr _, .obj _
  | .obj _, .null | .obj _, .bool _ | .obj _, .num _ | .obj _, .str _ | .obj _, .arr _ =>
      by simp [jeq]

theorem jeqList_iff : ∀ a b : List JVal, jeqList a b = true ↔ a = b
  | [], [] => by simp [jeqList]
  | [], _ :: _ => by simp [jeqList]
  | _ :: _, [] => by simp [jeqList]
  | a :: as', b :: bs' => by
      simp [jeqList, jeq_iff a b, jeqList_iff as' bs']

theorem jeqObj_iff : ∀ a b : List (String × JVal), jeqObj a b = true ↔ a = b
  | [], [] => by simp [jeqObj]
  | [], _ :: _ => by simp [jeqObj]
  | _ :: _, [] => by simp [jeqObj]
  | (ka, va) :: as', (kb, vb) :: bs' => by
      simp [jeqObj, jeq_iff va vb, jeqObj_iff as' bs', and_assoc]

end

instance : DecidableEq JVal := fun a b =>
  decidable_of_iff (jeq a b = true) (jeq_iff a b)

/-! ### String helpers

The Python scripts use `str.split`, `in` (substring test), `str.startswith`
via anchored regexes, `str.lower`, `str.upper` and `str.lstrip`.  We model
them by kernel-friendly recursions over the character list of the string. -/

/-- Auxiliary accumulator recursion behind `pySplit`. -/
def splitCharAux (sep : Char) : List Char → List Char → List String
  | [], acc => [String.mk acc.reverse]
  | c :: cs, acc =>
      if c = sep then String.mk acc.reverse :: splitCharAux sep cs []
      else splitCharAux sep cs (c :: acc)

/-- Python's `s.split(sep)` for a one-character separator:
`"/a/b".split("/") = ["", "a", "b"]`, `"".split("/") = [""]`. -/
def pySplit (sep : Char) (s : String) : List String :=
  splitCharAux sep s.toList []

/-- Auxiliary recursion behind `pyContains`. -/
def subListAux (pat : List Char) : List Char → Bool
  | [] => pat.isEmpty
  | c :: rest => pat.isPrefixOf (c :: rest) || subListAux pat rest

/-- Python's substring test `pat in s` (also the semantics of matching the
regex `.*pat.*` against `s` for a literal `pat`, on newline-free strings). -/
def pyContains (s pat : String) : Bool :=
  subListAux pat.toList s.toList

/-- Python's `s.startswith(pre)` (also the semantics of matching the anchored
regex `^pre.*` — and of `^pre/.*` when `pre` ends in the slash). -/
def pyStartsWith (s pre : String) : Bool :=
  pre.toList.isPrefixOf s.toList

/-- Python's `s.lstrip(c)` for a single strip character. -/
def pyLStrip (c : Char) (s : String) : String :=
  String.mk (s.toList.dropWhile (fun x => x = c))

/-- Python's `s.lower()` for ASCII text (kernel-friendly form of
`String.toLower`). -/
def pyLower (s : String) : String := String.mk (s.toList.map Char.toLower)

/-- Python's `s.upper()` for ASCII text. -/
def pyUpper (s : String) : String := String.mk (s.toList.map Char.toUpper)

/-! ### HTTP headers

Headers are association lists.  mitmproxy's `Headers` mapping compares names
case-insensitively; `headers[k] = v` replaces a header whose name matches
case-insensitively (keeping its position) and otherwise appends, and
`headers.get(k)` returns the first case-insensitive match. -/

/-- Does the header entry `kv` have name `k`, compared case-insensitively? -/
def headerKeyIs (k : String) (kv : String × String) : Bool :=
  pyLower kv.1 == pyLower k

/-- `headers.get(k)`: first value whose name matches case-insensitively. -/
def getHeader (hs : List (String × String)) (k : String) : Option String :=
  (hs.find? (headerKeyIs k)).map (fun kv => kv.2)

/-- `headers[k] = v`: replace every case-insensitive match in place, else
append at the end. -/
def setHeader (hs : List (String × String)) (k v : String) : List (String × String) :=
  if hs.any (headerKeyIs k) then
    hs.map (fun kv => if headerKeyIs k kv then (k, v) else kv)
  else hs ++ [(k, v)]

/-! ## Compiler: `mitm_to_mockoon.py` -/

/-- Python's `json.dumps` string quoting (the escapes the recorded bodies can
need; `ensure_ascii` transformations of non-ASCII text are not modelled). -/
def jsonEscapeChar (c : Char) : String :=
  if c = '"' then "\\\""
  else if c = '\\' then "\\\\"
  else if c = '\n' then "\\n"
  else if c = '\r' then "\\r"
  else if c = '\t' then "\\t"
  else String.singleton c

def jsonQuote (s : String) : String :=
  "\"" ++ String.join (s.toList.map jsonEscapeChar) ++ "\""

def pad (n : Nat) : String := String.mk (List.replicate n ' ')

mutual

/-- `json.dumps(v, indent=2)` at current indentation `ind`. -/
def dumpsVal (ind : Nat) : JVal → String
  | .null => "null"
  | .bool b => if b then "true" else "false"
  | .num n => toString n
  | .str s => jsonQuote s
  | .arr [] => "[]"
  | .arr (x :: xs) =>
      "[\n" ++ String.intercalate ",\n" (dumpsItems (ind + 2) (x :: xs))
      ++ "\n" ++ pad ind ++ "]"
  | .obj [] => "\x7b\x7d"
  | .obj (kv :: kvs) =>
      "\x7b\n" ++ String.intercalate ",\n" (dumpsFields (ind + 2) (kv :: kvs))
      ++ "\n" ++ pad ind ++ "\x7d"

def dumpsItems (ind : Nat) : List JVal → List String
  | [] => []
  | x :: xs => (pad ind ++ dumpsVal ind x) :: dumpsItems ind xs

def dumpsFields (ind : Nat) : List (String × JVal) → List String
  | [] => []
  | (k, v) :: kvs =>
      (pad ind ++ jsonQuote k ++ ": " ++ dumpsVal ind v) :: dumpsFields ind kvs

end

/-- `exclude_headers` of `clean_headers`: the connection-specific header names
never emitted into compiled routes. -/
def exclude_headers : List String :=
  ["content-length", "transfer-encoding", "connection",
   "keep-alive", "host", "content-encoding"]

/-- `clean_headers`: keep exactly the headers whose lower-cased name is not in
`exclude_headers` (the source emits them as `{key, value}` objects; we keep
the pair representation). -/
def clean_headers (headers : List (String × String)) : List (String × String) :=
  headers.filter (fun kv => !(exclude_headers.contains (pyLower kv.1)))

/-- Python's `part.isdigit()` for ASCII text: non-empty and all digits. -/
def pyIsDigit (s : String) : Bool :=
  !s.isEmpty && s.toList.all Char.isDigit

/-- `determine_endpoint`: split the path on `/`, drop empty segments, map a
segment to `:id` when `part.isdigit() or ('-' in part and len(part) > 30)`,
rejoin with a leading slash (or return the path unchanged when no segment
remains). -/
def determine_endpoint (path : String) : String :=
  let parts := pySplit '/' path
  let result := (parts.filter (fun part => !(part == ""))).map
    (fun part =>
      if pyIsDigit part || (part.toList.contains '-' && part.length > 30)
      then ":id" else part)
  if !(result == []) then "/" ++ String.intercalate "/" result else path

/-- One recorded exchange, as read back from a line of the JSONL log.  Only
the fields `convert_recordings_to_mockoon` reads are modelled
(`request.method`, `request.path`, `response.status_code`,
`response.headers`, `response.body`). -/
structure Recording where
  method : String
  path : String
  respStatus : Nat
  respHeaders : List (String × String)
  respBody : JVal
deriving Repr, DecidableEq

/-- The grouping key `f"{method.lower()}:{path}"`. -/
def recKey (r : Recording) : String :=
  pyLower r.method ++ ":" ++ r.path

/-- `key.split(':', 1)`: the part before the first colon and the rest.  Every
key produced by `recKey` contains a colon, so the colon-free case is
unreachable there. -/
def splitKey (key : String) : String × String :=
  match pySplit ':' key with
  | [] => (key, "")
  | [a] => (a, "")
  | a :: rest => (a, String.intercalate ":" rest)

/-- The keys of the `defaultdict` grouping, in first-appearance order (the
iteration order of a Python dict). -/
def firstKeys : List Recording → List String
  | [] => []
  | r :: rs => recKey r :: (firstKeys rs).filter (fun k => !(k == recKey r))

/-- Serialisation of the canonical response body: a dict is re-encoded with
`json.dumps(body, indent=2)`; any other value passes through unchanged. -/
def serializeBody : JVal → JVal
  | .obj kvs => .str (dumpsVal 0 (.obj kvs))
  | v => v

/-- One Mockoon response variant.  The fields the script fills with constants
(`latency = 0`, `bodyType = "INLINE"`, the empty file/databucket fields, the
rule list, `default = True`, …) are omitted from the model. -/
structure RouteResponse where
  uuid : String
  body : JVal
  statusCode : Nat
  label : String
  headers : List (String × String)
deriving Repr, DecidableEq

/-- One Mockoon route (`enabled = True` and `responseMode = None` are
constants and omitted). -/
structure Route where
  uuid : String
  documentation : String
  method : String
  endpoint : String
  responses : List RouteResponse
deriving Repr, DecidableEq

/-- The Mockoon environment document (fixed serving metadata beyond the port
and hostname — CORS headers, TLS options, proxy settings — omitted). -/
structure MockoonConfig where
  uuid : String
  name : String
  port : Nat
  hostname : String
  routes : List Route
deriving Repr, DecidableEq

/-- Fallback recording handed to `List.headD`; never reached because every
group of `convert_recordings_to_mockoon` is non-empty. -/
def defaultRecording : Recording :=
  { method := "", path := "", respStatus := 0, respHeaders := [], respBody := .null }

/-- The route built for the `i`-th group key.  `gen` is the injected
identifier generator standing for `generate_uuid`/`uuid.uuid4()`; the script
draws the route uuid first and the response uuid second, hence indices
`2*i` and `2*i + 1`. -/
def buildRoute (gen : Nat → String) (recs : List Recording) (i : Nat) (key : String) : Route :=
  let mp := splitKey key
  let method := mp.1
  let path := mp.2
  let group := recs.filter (fun r => recKey r == key)
  let first_rec := group.headD defaultRecording
  let endpoint := pyLStrip '/' (determine_endpoint path)
  { uuid := gen (2 * i),
    documentation := "Recorded: " ++ pyUpper method ++ " " ++ path,
    method := method,
    endpoint := endpoint,
    responses := [{
      uuid := gen (2 * i + 1),
      body := serializeBody first_rec.respBody,
      statusCode := first_rec.respStatus,
      label := "Recorded response (" ++ toString group.length ++ " similar)",
      headers := clean_headers first_rec.respHeaders }] }

/-- `convert_recordings_to_mockoon`, from the list of decoded recordings to
the Mockoon environment.  The environment uuid is the last generator draw. -/
def convert_recordings_to_mockoon (gen : Nat → String) (recs : List Recording) : MockoonConfig :=
  let keys := firstKeys recs
  let routes := keys.enum.map (fun p => buildRoute gen recs p.1 p.2)
  { uuid := gen (2 * keys.length),
    name := "Recorded API Mocks",
    port := 3000,
    hostname := "0.0.0.0",
    routes := routes }

/-- One physical line of the recordings file: blank (skipped by the
`line.strip()` guard), malformed (non-blank text `json.loads` rejects), or a
well-formed record. -/
inductive LogLine where
  | blank
  | malformed
  | record (r : Recording)
deriving Repr, DecidableEq

/-- The reading loop of `convert_recordings_to_mockoon`: blank lines are
skipped; `json.loads` on a malformed line raises, which propagates out of the
function (there is no try/except around the loop), so the whole batch fails. -/
def readRecordings : List LogLine → Except Unit (List Recording)
  | [] => .ok []
  | .blank :: rest => readRecordings rest
  | .malformed :: _ => .error ()
  | .record r :: rest =>
      match readRecordings rest with
      | .ok rs => .ok (r :: rs)
      | .error e => .error e

/-- End-to-end compile of a recordings file: read every line, then convert.
An exception while reading aborts with no output document. -/
def convert_log (gen : Nat → String) (lines : List LogLine) : Except Unit MockoonConfig :=
  (readRecordings lines).map (convert_recordings_to_mockoon gen)

/-- A constant identifier generator used for concrete evaluations. -/
def gen0 : Nat → String := fun _ => ""

def cr42 : Recording :=
  { method := "GET", path := "/api/v1/users/42", respStatus := 200,
    respHeaders := [("Content-Type", "application/json")], respBody := .str "body-42" }

def cr17 : Recording :=
  { method := "GET", path := "/api/v1/users/17", respStatus := 200,
    respHeaders := [("Content-Type", "application/json")], respBody := .str "body-17" }


/-! ## Fallback supervisor: `fallback_mock.py` -/

/-- The client-visible response of a flow (status, reason phrase, raw body
bytes as a string, headers). -/
structure HttpResponse where
  statusCode : Nat
  reason : String
  content : String
  headers : List (String × String)
deriving Repr, DecidableEq

/-- `FALLBACK_STATUS_CODES`: the real-backend statuses that trigger the
fallback attempt. -/
def FALLBACK_STATUS_CODES : List Nat := [500, 502, 503, 504]

/-- The header names the fallback refuses to copy from the mock backend's
response (`response`, line 64 of `fallback_mock.py`). -/
def fallbackExcluded : List String :=
  ["content-encoding", "transfer-encoding", "content-length"]

/-- The header-copy loop: each mock header whose lower-cased name is not in
`fallbackExcluded` is assigned into the flow's response headers
(`flow.response.headers[key] = value`), in order. -/
def mergeMockHeaders (hs : List (String × String)) : List (String × String) → List (String × String)
  | [] => hs
  | (k, v) :: rest =>
      if fallbackExcluded.contains (pyLower k) then mergeMockHeaders hs rest
      else mergeMockHeaders (setHeader hs k v) rest

/-- The `response` hook of `fallback_mock.py`.  `mockResult` is the outcome of
the `requests.request` call to the mock backend: `.error ()` stands for any
raised transport exception (caught by the blanket `except`, leaving the flow
untouched), `.ok mock` for a received mock response. -/
def fallback_response (real : HttpResponse) (mockResult : Except Unit HttpResponse) : HttpResponse :=
  if !(FALLBACK_STATUS_CODES.contains real.statusCode) then real
  else
    match mockResult with
    | .error _ => real
    | .ok mock =>
        if mock.statusCode == 404 then real
        else
          { statusCode := mock.statusCode,
            reason := mock.reason,
            content := mock.content,
            headers := setHeader (mergeMockHeaders real.headers mock.headers)
                         "X-Fallback-Mock" "true" }

/-! ## Router: `route_to_mockoon.py` -/

def MOCKOON_HOST : String := "mockoon"

def MOCKOON_PORT : Nat := 3000

/-- `REAL_ENDPOINTS` as predicates: `^/api/v1/health$` and `^/api/v1/metrics$`
are exact-match regexes on newline-free paths. -/
def matchesRealEndpoint (path : String) : Bool :=
  path == "/api/v1/health" || path == "/api/v1/metrics"

/-- `MOCK_ENDPOINTS` as predicates: the three `^…$` patterns are exact
matches, `^/api/v1/users/.*` is a prefix match on `/api/v1/users/`, and
`^/api/v1/products.*` / `^/api/v1/orders.*` are prefix matches. -/
def matchesMockEndpoint (path : String) : Bool :=
  path == "/api/v1/auth/login" || path == "/api/v1/auth/register" ||
  path == "/api/v1/user/profile" ||
  pyStartsWith path "/api/v1/users/" ||
  pyStartsWith path "/api/v1/products" ||
  pyStartsWith path "/api/v1/orders"

/-- `should_mock`: the `REAL_ENDPOINTS` loop returns `False` on the first
match, then the `MOCK_ENDPOINTS` loop returns `True` on the first match. -/
def should_mock (path : String) : Bool :=
  if matchesRealEndpoint path then false
  else matchesMockEndpoint path

/-- A request as the routing scripts see it. -/
structure Request where
  method : String
  path : String
  scheme : String
  host : String
  port : Nat
  headers : List (String × String)
deriving Repr, DecidableEq

/-- `flow.request.headers.get("X-Force-Mock", "").lower() == "true"`. -/
def forceMockHeader (r : Request) : Bool :=
  pyLower ((getHeader r.headers "X-Force-Mock").getD "") == "true"

def forceRealHeader (r : Request) : Bool :=
  pyLower ((getHeader r.headers "X-Force-Real").getD "") == "true"

/-- The routing condition of the `request` hook:
`force_mock or (should_mock(path) and not force_real)`. -/
def routeDecision (r : Request) : Bool :=
  forceMockHeader r || (should_mock r.path && !(forceRealHeader r))

/-- The `request` hook of `route_to_mockoon.py`: on a mock decision the flow
is rewritten to `http://mockoon:3000` and tagged `X-Mocked-By`; otherwise it
passes through unchanged. -/
def route_request (r : Request) : Request :=
  if routeDecision r then
    let r1 := { r with scheme := "http", host := MOCKOON_HOST, port := MOCKOON_PORT }
    { r1 with headers := setHeader r1.headers "X-Mocked-By" "mitmproxy-mockoon" }
  else r

/-! ## Response enhancer: `enhance_responses.py` -/

/-- The text of a response body, viewed through `json.loads`: either raw text
the decoder rejects, or the decoded value (for decodable text the
`loads`/`dumps` coding is inverted at the value level, so the enhanced body
`flow.response.text = json.dumps(v)` is modelled as `decoded v`). -/
inductive BodyText where
  | raw (s : String)
  | decoded (v : JVal)
deriving Repr, DecidableEq

/-- The flow state `enhance_responses.py` reads and writes. -/
structure EnhanceFlow where
  reqPath : String
  reqHeaders : List (String × String)
  respStatus : Nat
  respBody : BodyText
  respHeaders : List (String × String)
deriving Repr, DecidableEq

/-- Lookup in a decoded JSON object (`d[k]` / `k in d`; decoded Python dicts
have unique keys, so the first match is the match). -/
def objLookup : List (String × JVal) → String → Option JVal
  | [], _ => none
  | kv :: t, k => if kv.1 == k then some kv.2 else objLookup t k

/-- Python's `{**real, **enh}`: the keys of `real` keep their positions, with
values overridden by `enh` on collision; keys only in `enh` are appended in
`enh`'s order. -/
def dictMerge (a b : List (String × JVal)) : List (String × JVal) :=
  (a.map (fun kv => (kv.1, (objLookup b kv.1).getD kv.2)))
  ++ b.filter (fun kv => (objLookup a kv.1).isNone)

/-- `real_data.extend(enhance_data["items"])`: extending a Python list with
an iterable.  A JSON array extends element-wise, a string extends with its
one-character strings, a dict extends with its keys; any other value raises
`TypeError`, which the blanket `except` turns into "response unchanged"
(`none`). -/
def pyExtendItems (xs : List JVal) : JVal → Option (List JVal)
  | .arr ys => some (xs ++ ys)
  | .str s => some (xs ++ s.toList.map (fun c => .str (String.singleton c)))
  | .obj kvs => some (xs ++ kvs.map (fun kv => .str kv.1))
  | _ => none

/-- The `response` hook of `enhance_responses.py`.  `fetch` is the outcome of
the supplemental `requests.get` to the mock backend: `none` stands for any
failure (transport error, a non-ok status, an undecodable body — all of which
leave the flow unchanged), `some v` for a decoded supplemental value.
Branches of the original code that always end in a caught exception (a
non-dict, non-array real value; `"items" in enhance_data` on a non-dict
supplement followed by a failing index) are collapsed into the identity
arm. -/
def enhance_response (f : EnhanceFlow) (fetch : Option JVal) : EnhanceFlow :=
  if !(f.respStatus == 200) then f
  else if !(pyLower ((getHeader f.reqHeaders "X-Enhance-Response").getD "") == "true") then f
  else
    match f.respBody with
    | .raw _ => f
    | .decoded real =>
        match fetch with
        | none => f
        | some enh =>
            match real, enh with
            | .obj rkv, .obj ekv =>
                { f with respBody := .decoded (.obj (dictMerge rkv ekv)),
                         respHeaders := setHeader f.respHeaders "X-Enhanced" "true" }
            | .arr xs, .obj ekv =>
                match objLookup ekv "items" with
                | none => f
                | some itemsVal =>
                    match pyExtendItems xs itemsVal with
                    | none => f
                    | some newList =>
                        { f with respBody := .decoded (.arr newList),
                                 respHeaders := setHeader f.respHeaders "X-Enhanced" "true" }
            | _, _ => f

/-! ## Recorder filter: `selective_record.py` -/

/-- `EXCLUDE_PATTERNS` are `.*word.*` regexes matched with `re.IGNORECASE`:
on newline-free paths this is a case-insensitive substring test for the
literal word. -/
def EXCLUDE_SUBSTRINGS : List String := ["analytics", "tracking", "ads", "metrics"]

/-- `RECORD_PATTERNS` as predicates: `^/api/v1/.*` and `^/api/auth/.*` are
case-sensitive prefix matches, `^/graphql$` an exact match. -/
def matchesRecordPattern (path : String) : Bool :=
  pyStartsWith path "/api/v1/" || pyStartsWith path "/api/auth/" || path == "/graphql"

/-- `should_record`: the exclusion loop returns `False` on the first
case-insensitive match, then the record loop returns `True` on the first
case-sensitive match. -/
def should_record (path : String) : Bool :=
  if EXCLUDE_SUBSTRINGS.any (fun pat => pyContains (pyLower path) pat) then false
  else matchesRecordPattern path

/-! ## Conditional engine: `conditional_mock.py` -/

/-- A request as `conditional_mock.py` sees it: headers plus the query
multidict (query keys are matched case-sensitively). -/
structure CondRequest where
  method : String
  path : String
  scheme : String
  host : String
  port : Nat
  headers : List (String × String)
  query : List (String × String)
deriving Repr, DecidableEq

/-- `flow.request.headers.get("X-Mock-Mode", "").lower()`. -/
def mockModeVal (r : CondRequest) : String :=
  pyLower ((getHeader r.headers "X-Mock-Mode").getD "")

/-- First value of a query key (`flow.request.query.get(k, "")`). -/
def queryGet (q : List (String × String)) (k : String) : Option String :=
  (q.find? (fun kv => kv.1 == k)).map (fun kv => kv.2)

/-- `"mock" in query and query.get("mock", "").lower() in ["true","1","yes"]`. -/
def hasMockParam (r : CondRequest) : Bool :=
  (r.query.any (fun kv => kv.1 == "mock")) &&
  (["true", "1", "yes"].contains (pyLower ((queryGet r.query "mock").getD "")))

/-- `flow.request.headers.get("X-Test-Scenario", "")`. -/
def testScenario (r : CondRequest) : String :=
  (getHeader r.headers "X-Test-Scenario").getD ""

/-- The `should_mock` chain of the `request` hook: explicit mock mode wins,
then explicit real mode, then the truthy mock query parameter, then a
non-empty scenario header; default real. -/
def condShouldMock (r : CondRequest) : Bool :=
  let mm := mockModeVal r
  if mm == "mock" || mm == "true" then true
  else if mm == "real" || mm == "false" then false
  else if hasMockParam r then true
  else !(testScenario r == "")

/-- Whether the `elif has_mock_param` branch fired, which is the only branch
that pops the `mock` query parameter. -/
def mockParamPopped (r : CondRequest) : Bool :=
  let mm := mockModeVal r
  !(mm == "mock" || mm == "true") && !(mm == "real" || mm == "false") && hasMockParam r

/-- The `request` hook of `conditional_mock.py`, with the in-branch side
effect (popping the `mock` query key) factored out of the decision chain:
on a mock decision the flow is redirected to `http://mockoon:3000`, the
scenario value (if any) is forwarded as `X-Mockoon-Scenario`, and the flow is
tagged `X-Mocked-By`; otherwise the request is left unchanged. -/
def conditional_request (r : CondRequest) : CondRequest :=
  let r1 := if mockParamPopped r then
              { r with query := r.query.filter (fun kv => !(kv.1 == "mock")) }
            else r
  if condShouldMock r then
    let r2 := { r1 with scheme := "http", host := MOCKOON_HOST, port := MOCKOON_PORT }
    let r3 := if !(testScenario r == "") then
                { r2 with headers := setHeader r2.headers "X-Mockoon-Scenario" (testScenario r) }
              else r2
    { r3 with headers := setHeader r3.headers "X-Mocked-By" "mitmproxy-conditional" }
  else r1


/-! ### Concrete inputs used by witnesses and counterexamples -/

/-- The identifier-free projection of a compiled route: method, endpoint
template, and per-variant (body, status, filtered header list).  These are
exactly the fields the spec's determinism requirement ranges over. -/
def routeSignature (r : Route) : String × String × List (JVal × Nat × List (String × String)) :=
  (r.method, r.endpoint, r.responses.map (fun p => (p.body, p.statusCode, p.headers)))

def creal3 : HttpResponse :=
  { statusCode := 502, reason := "Bad Gateway", content := "err",
    headers := [("Content-Type", "text/plain")] }

def cmock3 : HttpResponse :=
  { statusCode := 200, reason := "OK", content := "mock-body",
    headers := [("Connection", "keep-alive")] }

def creal4 : HttpResponse :=
  { statusCode := 502, reason := "Bad Gateway", content := "bad", headers := [] }

def cmock4 : HttpResponse :=
  { statusCode := 200, reason := "OK", content := "B",
    headers := [("Host", "mockoon")] }

def wreal4 : HttpResponse :=
  { statusCode := 502, reason := "Bad Gateway", content := "boom", headers := [] }

def wmock4 : HttpResponse :=
  { statusCode := 200, reason := "OK", content := "B",
    headers := [("Content-Type", "application/json")] }

def wreal5 : HttpResponse :=
  { statusCode := 503, reason := "Service Unavailable", content := "down",
    headers := [("X-Req-Id", "1")] }

def wmock5 : HttpResponse :=
  { statusCode := 404, reason := "Not Found", content := "", headers := [] }

def wreq6 : Request :=
  { method := "GET", path := "/api/v1/health", scheme := "https",
    host := "api.example.com", port := 443,
    headers := [("X-Force-Mock", "TRUE"), ("X-Force-Real", "true")] }

def creq6 : Request :=
  { method := "GET", path := "/api/v1/health", scheme := "https",
    host := "api.example.com", port := 443,
    headers := [("X-Force-Mock", "1")] }

def wflow7 : EnhanceFlow :=
  { reqPath := "/api/v1/user/profile",
    reqHeaders := [("X-Enhance-Response", "true")],
    respStatus := 200,
    respBody := .decoded (.obj [("a", .num 1), ("b", .num 2)]),
    respHeaders := [] }

def wsupp7 : JVal := .obj [("b", .num 9), ("c", .num 3)]

def cflow7 : EnhanceFlow :=
  { reqPath := "/api/v1/user/profile",
    reqHeaders := [("X-Enhance-Response", "yes")],
    respStatus := 200,
    respBody := .decoded (.obj [("a", .num 1)]),
    respHeaders := [] }

def csupp7 : JVal := .obj [("b", .num 2)]

def wreq10 : CondRequest :=
  { method := "GET", path := "/api/v1/users/1", scheme := "https",
    host := "api.example.com", port := 443,
    headers := [("X-Mock-Mode", "REAL"), ("X-Test-Scenario", "edge-case")],
    query := [("mock", "true")] }

/-! ### Lemmas about header lookup and assignment -/

theorem headerKeyIs_of_lower_eq {k k' : String} (h : pyLower k' = pyLower k)
    (kv : String × String) : headerKeyIs k' kv = headerKeyIs k kv := by
  simp [headerKeyIs, h]

theorem find?_replace_matching (k k' v : String) (h : pyLower k' = pyLower k) :
    ∀ hs : List (String × String), hs.any (headerKeyIs k) = true →
      (hs.map (fun kv => if headerKeyIs k kv then (k, v) else kv)).find? (headerKeyIs k')
        = some (k, v)
  | [], h' => by simp at h'
  | kv :: t, h' => by
      by_cases hk : headerKeyIs k kv = true
      · have hk' : headerKeyIs k' (k, v) = true := by simp [headerKeyIs, h]
        simp [List.map_cons, hk, List.find?_cons_of_pos, hk']
      · have hkf : headerKeyIs k kv = false := by simpa using hk
        have hkf' : headerKeyIs k' kv = false := by
          rw [headerKeyIs_of_lower_eq h kv]; exact hkf
        have ht : t.any (headerKeyIs k) = true := by
          simpa [List.any_cons, hkf] using h'
        rw [List.map_cons, if_neg hk, List.find?_cons_of_neg _ (by simp [hkf'])]
        exact find?_replace_matching k k' v h t ht

theorem getHeader_setHeader_matching (hs : List (String × String)) (k k' v : String)
    (h : pyLower k' = pyLower k) :
    getHeader (setHeader hs k v) k' = some v := by
  unfold setHeader getHeader
  by_cases ha : hs.any (headerKeyIs k) = true
  · rw [if_pos ha, find?_replace_matching k k' v h hs ha]; rfl
  · rw [if_neg ha, List.find?_append]
    have hnone : hs.find? (headerKeyIs k') = none := by
      rw [List.find?_eq_none]
      intro kv hkv
      rw [headerKeyIs_of_lower_eq h kv]
      have haf : hs.any (headerKeyIs k) = false := by simpa using ha
      have := List.any_eq_false.mp haf kv hkv
      simpa using this
    have hone : headerKeyIs k' (k, v) = true := by simp [headerKeyIs, h]
    rw [hnone, Option.none_or, List.find?_cons_of_pos _ hone]
    rfl

theorem find?_replace_other (k k' v : String) (h : ¬ pyLower k' = pyLower k) :
    ∀ hs : List (String × String),
      (hs.map (fun kv => if headerKeyIs k kv then (k, v) else kv)).find? (headerKeyIs k')
        = hs.find? (headerKeyIs k')
  | [] => rfl
  | kv :: t => by
      by_cases hk : headerKeyIs k kv = true
      · have h1 : headerKeyIs k' (k, v) = false := by
          simp only [headerKeyIs]
          simp only [beq_eq_false_iff_ne, ne_eq]
          exact fun hh => h hh.symm
        have hkl : pyLower kv.1 = pyLower k := by simpa [headerKeyIs] using hk
        have h2 : headerKeyIs k' kv = false := by
          simp only [headerKeyIs, beq_eq_false_iff_ne, ne_eq, hkl]
          exact fun hh => h hh.symm
        rw [List.map_cons, if_pos hk, List.find?_cons_of_neg _ (by simp [h1]),
            List.find?_cons_of_neg _ (by simp [h2])]
        exact find?_replace_other k k' v h t
      · by_cases hc : headerKeyIs k' kv = true
        · rw [List.map_cons, if_neg hk, List.find?_cons_of_pos _ hc,
              List.find?_cons_of_pos _ hc]
        · rw [List.map_cons, if_neg hk, List.find?_cons_of_neg _ hc,
              List.find?_cons_of_neg _ hc]
          exact find?_replace_other k k' v h t

theorem getHeader_setHeader_other (hs : List (String × String)) (k k' v : String)
    (h : ¬ pyLower k' = pyLower k) :
    getHeader (setHeader hs k v) k' = getHeader hs k' := by
  unfold setHeader getHeader
  by_cases ha : hs.any (headerKeyIs k) = true
  · rw [if_pos ha, find?_replace_other k k' v h hs]
  · rw [if_neg ha, List.find?_append]
    have h1 : headerKeyIs k' (k, v) = false := by
      simp only [headerKeyIs, beq_eq_false_iff_ne, ne_eq]
      exact fun hh => h hh.symm
    rw [List.find?_cons_of_neg _ (by simp [h1])]
    cases hf : hs.find? (headerKeyIs k') <;> rfl

theorem getHeader_isSome_setHeader (hs : List (String × String)) (k k' v : String)
    (h : (getHeader hs k').isSome = true) :
    (getHeader (setHeader hs k v) k').isSome = true := by
  by_cases hl : pyLower k' = pyLower k
  · rw [getHeader_setHeader_matching hs k k' v hl]; rfl
  · rw [getHeader_setHeader_other hs k k' v hl]; exact h

theorem getHeader_isSome_merge (k' : String) :
    ∀ (mock hs : List (String × String)),
      (getHeader hs k').isSome = true →
      (getHeader (mergeMockHeaders hs mock) k').isSome = true
  | [], _, h => h
  | (k, v) :: rest, hs, h => by
      by_cases hc : fallbackExcluded.contains (pyLower k) = true
      · simp only [mergeMockHeaders]
        rw [if_pos hc]
        exact getHeader_isSome_merge k' rest hs h
      · simp only [mergeMockHeaders]
        rw [if_neg hc]
        exact getHeader_isSome_merge k' rest _ (getHeader_isSome_setHeader hs k k' v h)

theorem merge_sets_key (k v : String) :
    ∀ (mock hs : List (String × String)), (k, v) ∈ mock →
      fallbackExcluded.contains (pyLower k) = false →
      (getHeader (mergeMockHeaders hs mock) k).isSome = true
  | [], _, hm, _ => absurd hm (List.not_mem_nil _)
  | (k1, v1) :: rest, hs, hm, hex => by
      rcases List.mem_cons.mp hm with heq | htail
      · obtain ⟨hk1, hv1⟩ := Prod.mk.injEq k v k1 v1 |>.mp heq
        subst hk1; subst hv1
        simp only [mergeMockHeaders]
        rw [if_neg (by rw [hex]; exact Bool.false_ne_true)]
        refine getHeader_isSome_merge k rest _ ?_
        rw [getHeader_setHeader_matching hs k k v rfl]; rfl
      · by_cases hc : fallbackExcluded.contains (pyLower k1) = true
        · simp only [mergeMockHeaders]; rw [if_pos hc]
          exact merge_sets_key k v rest hs htail hex
        · simp only [mergeMockHeaders]; rw [if_neg hc]
          exact merge_sets_key k v rest _ htail hex

theorem merge_excluded_unchanged (k' : String)
    (hk : fallbackExcluded.contains (pyLower k') = true) :
    ∀ (mock hs : List (String × String)),
      getHeader (mergeMockHeaders hs mock) k' = getHeader hs k'
  | [], _ => rfl
  | (k, v) :: rest, hs => by
      by_cases hc : fallbackExcluded.contains (pyLower k) = true
      · simp only [mergeMockHeaders]; rw [if_pos hc]
        exact merge_excluded_unchanged k' hk rest hs
      · simp only [mergeMockHeaders]; rw [if_neg hc]
        rw [merge_excluded_unchanged k' hk rest _]
        apply getHeader_setHeader_other
        intro hl
        rw [hl] at hk
        exact hc hk

theorem merge_skips_excluded :
    ∀ (mock hs : List (String × String)),
      mergeMockHeaders hs mock =
        mergeMockHeaders hs
          (mock.filter (fun kv => !(fallbackExcluded.contains (pyLower kv.1))))
  | [], _ => rfl
  | (k, v) :: rest, hs => by
      by_cases hc : fallbackExcluded.contains (pyLower k) = true
      · rw [List.filter_cons, if_neg (by rw [hc]; decide)]
        simp only [mergeMockHeaders]
        rw [if_pos hc]
        exact merge_skips_excluded rest hs
      · have hcf : fallbackExcluded.contains (pyLower k) = false := by simpa using hc
        rw [List.filter_cons, if_pos (by rw [hcf]; decide)]
        simp only [mergeMockHeaders]
        rw [if_neg hc, if_neg hc]
        exact merge_skips_excluded rest (setHeader hs k v)

/-! ### Lemmas about JSON-object lookup and Python dict merge -/

theorem objLookup_append :
    ∀ (a b : List (String × JVal)) (k : String),
      objLookup (a ++ b) k = (objLookup a k).or (objLookup b k)
  | [], _, _ => rfl
  | kv :: t, b, k => by
      simp only [List.cons_append, objLookup]
      by_cases hk : (kv.1 == k) = true
      · rw [if_pos hk, if_pos hk]; rfl
      · rw [if_neg hk, if_neg hk]; exact objLookup_append t b k

theorem objLookup_override (b : List (String × JVal)) :
    ∀ (a : List (String × JVal)) (k : String),
      objLookup (a.map (fun kv => (kv.1, (objLookup b kv.1).getD kv.2))) k
        = (objLookup a k).map (fun v => (objLookup b k).getD v)
  | [], _ => rfl
  | kv :: t, k => by
      simp only [List.map_cons, objLookup]
      by_cases hk : (kv.1 == k) = true
      · have hkeq : kv.1 = k := by simpa using hk
        rw [if_pos hk, if_pos hk]
        simp [hkeq]
      · rw [if_neg hk, if_neg hk]
        exact objLookup_override b t k

theorem objLookup_filter_isNone (a : List (String × JVal)) (k : String)
    (h : objLookup a k = none) :
    ∀ b : List (String × JVal),
      objLookup (b.filter (fun kv => (objLookup a kv.1).isNone)) k = objLookup b k
  | [] => rfl
  | kv :: t => by
      by_cases hk : (kv.1 == k) = true
      · have hkeq : kv.1 = k := by simpa using hk
        have hnone : (objLookup a kv.1).isNone = true := by rw [hkeq, h]; rfl
        rw [List.filter_cons, if_pos (by simpa using hnone)]
        simp only [objLookup]
        rw [if_pos hk, if_pos hk]
      · by_cases hf : (objLookup a kv.1).isNone = true
        · rw [List.filter_cons, if_pos (by simpa using hf)]
          simp only [objLookup]
          rw [if_neg hk, if_neg hk]
          exact objLookup_filter_isNone a k h t
        · rw [List.filter_cons, if_neg (by simpa using hf)]
          simp only [objLookup]
          rw [if_neg hk]
          exact objLookup_filter_isNone a k h t

theorem objLookup_dictMerge (a b : List (String × JVal)) (k : String) :
    objLookup (dictMerge a b) k = (objLookup b k).or (objLookup a k) := by
  unfold dictMerge
  rw [objLookup_append, objLookup_override]
  cases ha : objLookup a k with
  | none =>
      rw [objLookup_filter_isNone a k ha b]
      cases hb : objLookup b k <;> rfl
  | some v => cases hb : objLookup b k <;> rfl

/-! ### Lemmas about the compiler's grouping -/

theorem firstKeys_nodup : ∀ recs : List Recording, (firstKeys recs).Nodup
  | [] => List.nodup_nil
  | r :: rs => by
      rw [firstKeys]
      refine List.nodup_cons.mpr ⟨?_, List.Nodup.filter _ (firstKeys_nodup rs)⟩
      intro hmem
      have := (List.mem_filter.mp hmem).2
      simp at this

/-! ## Claim theorems -/

/-- C1 (counterexample): compiling the two-exchange log `GET /api/v1/users/42`,
`GET /api/v1/users/17` does NOT yield exactly one route.  The compiler groups
by (lower-cased method, exact recorded path), so the two paths land in two
different groups and the table contains two routes that share the same
(method, endpoint template) pair — refuting both the uniqueness part and the
"exactly one route" part of the claim. -/
theorem compile_two_id_paths_yields_two_routes :
    (convert_recordings_to_mockoon gen0 [cr42, cr17]).routes.map
        (fun r => (r.method, r.endpoint)) =
      [("get", "api/v1/users/:id"), ("get", "api/v1/users/:id")] ∧
    ¬ (convert_recordings_to_mockoon gen0 [cr42, cr17]).routes.length = 1 := by
  constructor
  · decide
  · decide

/-- C1 (amended): the compiled table has at most one route per (lower-cased
method, exact recorded path) group key — the group keys are pairwise distinct
and routes are in bijection with them — and compiling the two-exchange
example yields two routes, both with endpoint template `api/v1/users/:id`
(the leading slash is stripped for Mockoon), each carrying its own exchange's
body and a label noting 1 similar recording. -/
theorem routes_unique_per_method_exact_path :
    (∀ recs : List Recording, (firstKeys recs).Nodup) ∧
    (∀ (gen : Nat → String) (recs : List Recording),
        (convert_recordings_to_mockoon gen recs).routes.length = (firstKeys recs).length) ∧
    (convert_recordings_to_mockoon gen0 [cr42, cr17]).routes.map
        (fun r => (r.method, r.endpoint,
          r.responses.map (fun p => (p.body, p.statusCode, p.label)))) =
      [("get", "api/v1/users/:id",
          [(JVal.str "body-42", 200, "Recorded response (1 similar)")]),
       ("get", "api/v1/users/:id",
          [(JVal.str "body-17", 200, "Recorded response (1 similar)")])] := by
  refine ⟨firstKeys_nodup, ?_, by decide⟩
  intro gen recs
  show ((firstKeys recs).enum.map (fun p => buildRoute gen recs p.1 p.2)).length
      = (firstKeys recs).length
  rw [List.length_map, List.enum_length]

/-- C2 (code bug): a malformed line does abort the whole batch.  The reading
loop applies `json.loads` with no per-line exception handling, so a log of
one well-formed line followed by one malformed line produces an error and no
route table at all, while the well-formed line alone compiles fine. -/
theorem malformed_line_aborts_batch :
    convert_log gen0 [LogLine.record cr42, LogLine.malformed] = .error () ∧
    convert_log gen0 [LogLine.record cr42] =
      .ok (convert_recordings_to_mockoon gen0 [cr42]) := ⟨rfl, rfl⟩

/-- C3 (counterexample): a connection-scoped header CAN appear in a
fallback-replaced response.  With a real 502 and a mock response carrying
`Connection: keep-alive`, the client-visible response contains that header,
because `fallback_mock.py` only filters content-encoding, transfer-encoding
and content-length when copying mock headers. -/
theorem fallback_copies_connection_header :
    getHeader (fallback_response creal3 (.ok cmock3)).headers "Connection"
      = some "keep-alive" ∧
    exclude_headers.contains (pyLower "Connection") = true := by
  constructor
  · decide
  · decide

/-- C3 (amended): compiled routes never carry any of the six
connection-scoped headers (`clean_headers` filters all of them,
case-insensitively), while the fallback's header copy filters exactly
content-encoding, transfer-encoding and content-length: merging mock headers
is unchanged by first discarding the entries with those three names, so those
three are never introduced — but the other three names pass through, as the
counterexample shows. -/
theorem clean_and_fallback_header_filtering :
    (∀ hs : List (String × String),
        (clean_headers hs).all
          (fun kv => !(exclude_headers.contains (pyLower kv.1))) = true) ∧
    (∀ (hs mock : List (String × String)),
        mergeMockHeaders hs mock =
          mergeMockHeaders hs
            (mock.filter (fun kv => !(fallbackExcluded.contains (pyLower kv.1))))) := by
  constructor
  · intro hs
    rw [List.all_eq_true]
    intro kv hkv
    exact (List.mem_filter.mp hkv).2
  · intro hs mock
    exact merge_skips_excluded mock hs

/-- C9: the compiler is deterministic modulo generated identifiers.  For any
two identifier generators (two runs), the per-route sequences of
(method, endpoint template, body, status, filtered headers) agree element
for element and in order. -/
theorem compile_deterministic_modulo_identifiers :
    ∀ (g1 g2 : Nat → String) (recs : List Recording),
      (convert_recordings_to_mockoon g1 recs).routes.map routeSignature =
      (convert_recordings_to_mockoon g2 recs).routes.map routeSignature := by
  intro g1 g2 recs
  show ((firstKeys recs).enum.map (fun p => buildRoute g1 recs p.1 p.2)).map routeSignature
      = ((firstKeys recs).enum.map (fun p => buildRoute g2 recs p.1 p.2)).map routeSignature
  rw [List.map_map, List.map_map]
  apply List.map_congr_left
  intro p _
  rfl

/-- C4 (counterexample): the claim's header clause fails — `Host` is one of
the spec's connection-scoped headers, yet a mock response carrying
`Host: mockoon` has it copied verbatim into the fallback-replaced response. -/
theorem fallback_copies_host_header :
    getHeader (fallback_response creal4 (.ok cmock4)).headers "Host"
      = some "mockoon" ∧
    exclude_headers.contains (pyLower "Host") = true := by
  constructor
  · decide
  · decide

/-- C4 (amended): when the real status is in `FALLBACK_STATUS_CODES` and the
mock backend answers with a non-404 status S and body B, the client-visible
response has status S, reason and body from the mock, carries
`X-Fallback-Mock: true`, every mock header whose name is not one of
content-encoding / transfer-encoding / content-length is present in the
result, and headers with those three names are left exactly as they were on
the original error response. -/
theorem fallback_replaces_with_mock (real mock : HttpResponse)
    (h1 : FALLBACK_STATUS_CODES.contains real.statusCode = true)
    (h2 : mock.statusCode ≠ 404) :
    (fallback_response real (.ok mock)).statusCode = mock.statusCode ∧
    (fallback_response real (.ok mock)).reason = mock.reason ∧
    (fallback_response real (.ok mock)).content = mock.content ∧
    getHeader (fallback_response real (.ok mock)).headers "X-Fallback-Mock"
      = some "true" ∧
    (∀ k v, (k, v) ∈ mock.headers → fallbackExcluded.contains (pyLower k) = false →
        (getHeader (fallback_response real (.ok mock)).headers k).isSome = true) ∧
    (∀ k, fallbackExcluded.contains (pyLower k) = true →
        getHeader (fallback_response real (.ok mock)).headers k
          = getHeader real.headers k) := by
  have hb : (mock.statusCode == 404) = false := by
    simpa using h2
  have hout : fallback_response real (.ok mock) =
      { statusCode := mock.statusCode,
        reason := mock.reason,
        content := mock.content,
        headers := setHeader (mergeMockHeaders real.headers mock.headers)
                     "X-Fallback-Mock" "true" } := by
    unfold fallback_response
    rw [h1]
    simp [hb]
  rw [hout]
  refine ⟨rfl, rfl, rfl, ?_, ?_, ?_⟩
  · exact getHeader_setHeader_matching _ _ _ _ rfl
  · intro k v hm hex
    exact getHeader_isSome_setHeader _ _ _ _ (merge_sets_key k v mock.headers real.headers hm hex)
  · intro k hk
    rw [getHeader_setHeader_other _ _ _ _ ?_]
    · exact merge_excluded_unchanged k hk mock.headers real.headers
    · intro hl
      rw [hl] at hk
      revert hk
      decide

/-- C4 (witness): instantiating the amended theorem at a concrete 502 flow
and a concrete 200 mock response. -/
theorem fallback_replaces_with_mock_witness :
    (fallback_response wreal4 (.ok wmock4)).statusCode = wmock4.statusCode ∧
    getHeader (fallback_response wreal4 (.ok wmock4)).headers "X-Fallback-Mock"
      = some "true" :=
  ⟨(fallback_replaces_with_mock wreal4 wmock4 (by decide) (by decide)).1,
   (fallback_replaces_with_mock wreal4 wmock4 (by decide) (by decide)).2.2.2.1⟩

/-- C5: when the real status is in the configured error set and the mock
backend either fails with a transport error or answers 404, the
client-visible response is the original error response, completely
unchanged (in particular no `X-Fallback-Mock` header is added). -/
theorem fallback_preserves_original_on_404_or_error (real : HttpResponse)
    (mockResult : Except Unit HttpResponse)
    (h1 : FALLBACK_STATUS_CODES.contains real.statusCode = true)
    (h2 : mockResult = .error () ∨
          ∃ mock, mockResult = .ok mock ∧ mock.statusCode = 404) :
    fallback_response real mockResult = real := by
  rcases h2 with h2 | ⟨mock, hm, h404⟩
  · subst h2
    unfold fallback_response
    rw [h1]
    rfl
  · subst hm
    unfold fallback_response
    rw [h1]
    simp [h404]

/-- C5 (witness): a concrete 503 flow whose mock lookup answers 404 keeps the
original response. -/
theorem fallback_preserves_original_witness :
    fallback_response wreal5 (.ok wmock5) = wreal5 ∧
    getHeader wreal5.headers "X-Fallback-Mock" = none :=
  ⟨fallback_preserves_original_on_404_or_error wreal5 (.ok wmock5) (by decide)
      (Or.inr ⟨wmock5, rfl, rfl⟩),
   by decide⟩

/-- C6 (counterexample): carrying `X-Force-Mock` is not enough — the script
requires the value `"true"`.  A request with `X-Force-Mock: 1` on the
always-real path `/api/v1/health` is routed to the real backend, unchanged,
refuting the claim as stated. -/
theorem force_mock_nontrue_value_ignored :
    (getHeader creq6.headers "X-Force-Mock").isSome = true ∧
    routeDecision creq6 = false ∧
    route_request creq6 = creq6 := by
  refine ⟨?_, ?_, ?_⟩
  · decide
  · decide
  · decide

/-- C6 (amended): any request whose `X-Force-Mock` header value lower-cases
to `"true"` is routed to the mock backend — rewritten to
`http://mockoon:3000` and tagged `X-Mocked-By` — regardless of its path (in
particular on always-real deny paths) and even when `X-Force-Real: true` is
present: force-mock wins the conflict. -/
theorem force_mock_true_overrides_deny_and_real (r : Request)
    (h : forceMockHeader r = true) :
    routeDecision r = true ∧
    (route_request r).host = MOCKOON_HOST ∧
    (route_request r).port = MOCKOON_PORT ∧
    (route_request r).scheme = "http" ∧
    getHeader (route_request r).headers "X-Mocked-By" = some "mitmproxy-mockoon" := by
  have hd : routeDecision r = true := by
    unfold routeDecision
    rw [h]
    rfl
  refine ⟨hd, ?_, ?_, ?_, ?_⟩ <;>
    · unfold route_request
      rw [hd]
      first
        | rfl
        | exact getHeader_setHeader_matching _ _ _ _ rfl

/-- C6 (witness): instantiating the amended theorem at a request on the
always-real path `/api/v1/health` carrying both `X-Force-Mock: TRUE` and
`X-Force-Real: true`. -/
theorem force_mock_true_overrides_witness :
    matchesRealEndpoint wreq6.path = true ∧
    routeDecision wreq6 = true ∧
    (route_request wreq6).host = MOCKOON_HOST :=
  ⟨by decide,
   (force_mock_true_overrides_deny_and_real wreq6 (by decide)).1,
   (force_mock_true_overrides_deny_and_real wreq6 (by decide)).2.1⟩

/-- C7 (counterexample): carrying `X-Enhance-Response` is not enough — the
script requires the value `"true"`.  With `X-Enhance-Response: yes`, a 200
response and an available supplemental object, the flow is left completely
unchanged instead of carrying the shallow merge the claim demands. -/
theorem enhance_requires_true_header_value :
    enhance_response cflow7 (some csupp7) = cflow7 ∧
    (enhance_response cflow7 (some csupp7)).respBody ≠
      .decoded (.obj (dictMerge [("a", .num 1)] [("b", .num 2)])) ∧
    (getHeader cflow7.reqHeaders "X-Enhance-Response").isSome = true := by
  refine ⟨?_, ?_, ?_⟩
  · decide
  · decide
  · decide

/-- C7 (amended): when the real status is 200, the `X-Enhance-Response`
value lower-cases to `"true"` and a supplemental value is fetched
successfully, then: two mapping-shaped values are shallow-merged with the
supplemental entries winning every key collision (the lookup of any key in
the merge is the supplemental lookup, falling back to the real one); and a
sequence-shaped real value with a supplemental `items` array becomes the
real elements followed by the supplemental items, in order. -/
theorem enhance_merges_on_success (f : EnhanceFlow) (w : JVal)
    (h1 : f.respStatus = 200)
    (h2 : pyLower ((getHeader f.reqHeaders "X-Enhance-Response").getD "") = "true") :
    (∀ rkv ekv, f.respBody = .decoded (.obj rkv) → w = .obj ekv →
        (enhance_response f (some w)).respBody = .decoded (.obj (dictMerge rkv ekv)) ∧
        (∀ k, objLookup (dictMerge rkv ekv) k = (objLookup ekv k).or (objLookup rkv k))) ∧
    (∀ xs ekv ys, f.respBody = .decoded (.arr xs) → w = .obj ekv →
        objLookup ekv "items" = some (.arr ys) →
        (enhance_response f (some w)).respBody = .decoded (.arr (xs ++ ys))) := by
  have hguard : ∀ fetch, enhance_response f fetch =
      (match f.respBody with
       | .raw _ => f
       | .decoded real =>
          match fetch with
          | none => f
          | some enh =>
              match real, enh with
              | .obj rkv, .obj ekv =>
                  { f with respBody := .decoded (.obj (dictMerge rkv ekv)),
                           respHeaders := setHeader f.respHeaders "X-Enhanced" "true" }
              | .arr xs, .obj ekv =>
                  match objLookup ekv "items" with
                  | none => f
                  | some itemsVal =>
                      match pyExtendItems xs itemsVal with
                      | none => f
                      | some newList =>
                          { f with respBody := .decoded (.arr newList),
                                   respHeaders := setHeader f.respHeaders "X-Enhanced" "true" }
              | _, _ => f) := by
    intro fetch
    unfold enhance_response
    rw [h1, h2]
    rfl
  constructor
  · intro rkv ekv hb hw
    subst hw
    refine ⟨?_, fun k => objLookup_dictMerge rkv ekv k⟩
    rw [hguard, hb]
  · intro xs ekv ys hb hw hitems
    subst hw
    rw [hguard, hb]
    simp [hitems, pyExtendItems]

/-- C7 (witness): instantiating the amended theorem's mapping branch at a
concrete flow: `{a: 1, b: 2}` merged with supplement `{b: 9, c: 3}` gives
`{a: 1, b: 9, c: 3}` — the supplemental value wins the collision on `b`. -/
theorem enhance_merges_witness :
    (enhance_response wflow7 (some wsupp7)).respBody =
      .decoded (.obj [("a", .num 1), ("b", .num 9), ("c", .num 3)]) := by
  have h := ((enhance_merges_on_success wflow7 wsupp7 rfl (by decide)).1
    [("a", .num 1), ("b", .num 2)] [("b", .num 9), ("c", .num 3)] rfl rfl).1
  rw [h]
  decide

/-- C8: a path is recorded exactly when it matches no deny pattern
(case-insensitively) and matches an allow pattern (case-sensitively); in
particular `/api/v1/analytics/events` matches the allow prefix `/api/v1/`
but is still rejected because of the `analytics` deny pattern. -/
theorem should_record_iff_allow_and_not_deny :
    (∀ path, should_record path = true ↔
        ((∀ pat ∈ EXCLUDE_SUBSTRINGS, pyContains (pyLower path) pat = false) ∧
         matchesRecordPattern path = true)) ∧
    should_record "/api/v1/analytics/events" = false ∧
    matchesRecordPattern "/api/v1/analytics/events" = true := by
  refine ⟨?_, by decide, by decide⟩
  intro path
  constructor
  · intro hrec
    cases h : EXCLUDE_SUBSTRINGS.any (fun pat => pyContains (pyLower path) pat) with
    | true =>
        rw [should_record, if_pos h] at hrec
        exact absurd hrec (by simp)
    | false =>
        rw [should_record, if_neg (by simp [h])] at hrec
        refine ⟨?_, hrec⟩
        intro pat hm
        have := List.any_eq_false.mp h pat hm
        simpa using this
  · rintro ⟨hex, hmatch⟩
    have h : EXCLUDE_SUBSTRINGS.any (fun pat => pyContains (pyLower path) pat) = false := by
      rw [List.any_eq_false]
      intro pat hm
      simp [hex pat hm]
    rw [should_record, if_neg (by simp [h])]
    exact hmatch

/-- C10: in the conditional engine, an `X-Mock-Mode` header whose value
lower-cases to `"real"` or `"false"` forces the real backend: the decision
is not-mock and the request passes through completely unchanged, even when
the `mock` query flag is truthy and an `X-Test-Scenario` header is present. -/
theorem mock_mode_real_overrides_param_and_scenario (r : CondRequest)
    (h : mockModeVal r = "real" ∨ mockModeVal r = "false") :
    condShouldMock r = false ∧ conditional_request r = r := by
  have hm : (mockModeVal r == "mock" || mockModeVal r == "true") = false := by
    rcases h with h | h <;> rw [h] <;> decide
  have hr : (mockModeVal r == "real" || mockModeVal r == "false") = true := by
    rcases h with h | h <;> rw [h] <;> decide
  have hsm : condShouldMock r = false := by
    unfold condShouldMock
    rw [if_neg (by simp [hm]), if_pos hr]
  have hpp : mockParamPopped r = false := by
    simp only [mockParamPopped]
    simp [hr]
  refine ⟨hsm, ?_⟩
  unfold conditional_request
  rw [hsm, hpp]
  rfl

/-- C10 (witness): instantiating at a request with `X-Mock-Mode: REAL`,
query `mock=true` and scenario header `edge-case`: it still goes to the
real backend untouched. -/
theorem mock_mode_real_overrides_witness :
    conditional_request wreq10 = wreq10 ∧
    hasMockParam wreq10 = true ∧
    ¬ testScenario wreq10 = "" :=
  ⟨(mock_mode_real_overrides_param_and_scenario wreq10 (Or.inl (by decide))).2,
   by decide, by decide⟩
